import Mathlib

/-!
Verification development for src/pyscript/scrape.py.

The script is a single linear procedure: it enumerates job cards on a
listing page, follows each card's detail link, mines a years-of-experience
phrase from the detail page's body text with a compiled case-insensitive
regular expression, and serializes the accumulated records to a
timestamped JSON file.

The definitions below are a shallow embedding of that procedure.  The
network and the browser are modelled as explicit outcome parameters (a
navigation either succeeds with some body text or raises), and exceptions
are modelled by the branch structure of the Python try/except blocks.
All text handling is over ASCII, which is the alphabet of everything the
claims touch.
-/

/-- ASCII whitespace characters of Python's regex class \s
(space, tab, newline, carriage return, vertical tab, form feed). -/
def isSpaceChar (c : Char) : Bool :=
  c = ' ' || c = '\t' || c = '\n' || c = '\r' || c.toNat = 11 || c.toNat = 12

/-- ASCII word characters of Python's regex class \w, used to decide the
\b word boundaries of the pattern. -/
def isWordChar (c : Char) : Bool :=
  c.isAlpha || c.isDigit || c = '_'

/-- Case-insensitive literal match (re.IGNORECASE): consumes exactly the
pattern literal, comparing characters after lowercasing; returns the
number of characters consumed. -/
def matchLit : List Char → List Char → Option Nat
  | [], _ => some 0
  | _ :: _, [] => none
  | p :: ps, c :: cs =>
    if p.toLower = c.toLower then
      match matchLit ps cs with
      | some n => some (n + 1)
      | none => none
    else none

/-- Length of the maximal prefix satisfying p.  This implements the greedy
starred classes of the pattern; no backtracking is needed because in this
pattern every starred class is disjoint from the character that follows
it. -/
def countWhile (p : Char → Bool) (l : List Char) : Nat :=
  (l.takeWhile p).length

/-- Whether the position after a match lies at a \b word boundary.  The
last consumed character of every alternative is a word character, so the
boundary holds exactly when the rest of the text is empty or starts with a
non-word character. -/
def atBoundary : List Char → Bool
  | [] => true
  | c :: _ => !(isWordChar c)

/-- The tail `years?` of the pattern together with the closing \b of
experience_regex: "year", then an optional greedy "s", with the position
after the consumed text required to be a word boundary (exactly Python's
backtracking behaviour for `years?\b`). -/
def matchYearWord (s : List Char) : Option Nat :=
  match matchLit "year".data s with
  | none => none
  | some _ =>
    match s.drop 4 with
    | [] => some 4
    | c :: rest =>
      if c.toLower = 's' then
        if atBoundary rest then some 5 else none
      else if isWordChar c then none
      else some 4

/-- The alternative `\d+\+?\s*years?` of experience_regex, followed by the
closing \b. -/
def matchNumYears (s : List Char) : Option Nat :=
  let d := countWhile Char.isDigit s
  if d = 0 then none
  else
    let s1 := s.drop d
    let p : Nat :=
      match s1 with
      | '+' :: _ => 1
      | _ => 0
    let s2 := s1.drop p
    let w := countWhile isSpaceChar s2
    match matchYearWord (s2.drop w) with
    | none => none
    | some y => some (d + p + w + y)

/-- A keyword alternative of experience_regex: the literal keyword
("at least" or "minimum"), then `\s*\d+\+?\s*years?` and the closing \b. -/
def matchKeywordNum (kw : List Char) (s : List Char) : Option Nat :=
  match matchLit kw s with
  | none => none
  | some k =>
    let w := countWhile isSpaceChar (s.drop k)
    match matchNumYears (s.drop (k + w)) with
    | none => none
    | some m => some (k + w + m)

/-- The alternative `one year` of experience_regex followed by the closing
\b.  Unlike the other written-out words, the source pattern has no
optional "s" here. -/
def matchOneYear (s : List Char) : Option Nat :=
  match matchLit "one year".data s with
  | none => none
  | some k => if atBoundary (s.drop k) then some k else none

/-- A written-out word alternative such as `two years?` of
experience_regex, followed by the closing \b; kw is the word together with
its single following space character. -/
def matchWordYears (kw : List Char) (s : List Char) : Option Nat :=
  match matchLit kw s with
  | none => none
  | some k =>
    match matchYearWord (s.drop k) with
    | none => none
    | some y => some (k + y)

/-- One attempt of the compiled pattern at the current position, trying
the alternatives in the order they appear in experience_regex (first
alternative that matches wins, as in Python's alternation).  The leading
\b of the pattern is checked by the caller. -/
def tryMatch (s : List Char) : Option Nat :=
  matchKeywordNum "at least".data s
  <|> matchKeywordNum "minimum".data s
  <|> matchNumYears s
  <|> matchOneYear s
  <|> matchWordYears "two ".data s
  <|> matchWordYears "three ".data s
  <|> matchWordYears "four ".data s
  <|> matchWordYears "five ".data s
  <|> matchWordYears "six ".data s
  <|> matchWordYears "seven ".data s
  <|> matchWordYears "eight ".data s
  <|> matchWordYears "nine ".data s
  <|> matchWordYears "ten ".data s

/-- The leading \b of experience_regex: every alternative begins with a
word character, so the boundary holds exactly when there is no previous
character (start of text) or the previous character is a non-word
character. -/
def boundaryBefore : Option Char → Bool
  | none => true
  | some c => !(isWordChar c)

/-- The scan of re.findall: try the pattern at each position from the
left; on a match, emit the matched text and resume right after it (every
match of this pattern is non-empty).  The fuel argument starts at the
length of the text and bounds the number of scan steps. -/
def scanAux : Nat → Option Char → List Char → List String
  | 0, _, _ => []
  | _ + 1, _, [] => []
  | fuel + 1, prev, c :: cs =>
    match (if boundaryBefore prev then tryMatch (c :: cs) else none) with
    | some n =>
      String.mk ((c :: cs).take n)
        :: scanAux fuel (some ((((c :: cs).take n).getLast?).getD c)) ((c :: cs).drop n)
    | none => scanAux fuel (some c) cs

/-- experience_regex.findall(text): all leftmost, non-overlapping matches
of the compiled case-insensitive experience pattern (lines 14-17 of the
source), in order of occurrence.  The pattern has no capturing groups, so
findall returns the full matched substrings. -/
def findallExperience (s : String) : List String :=
  scanAux s.data.length none s.data

/-- Helper for dedupMatches: keeps the first occurrence of every string,
using exact (case-sensitive) string equality, as Python set membership
does on str. -/
def dedupAux (seen : List String) : List String → List String
  | [] => []
  | x :: xs => if seen.contains x then dedupAux seen xs else x :: dedupAux (x :: seen) xs

/-- set(matches): the distinct matched substrings.  A Python set has no
guaranteed iteration order; this model fixes first-occurrence order, and
statements that depend on the joined order are phrased so that any order
of the same distinct elements would satisfy them. -/
def dedupMatches (l : List String) : List String :=
  dedupAux [] l

/-- str.join: joins the list with the separator, as in ', '.join(...). -/
def joinSep (sep : String) : List String → String
  | [] => ""
  | [x] => x
  | x :: xs => x ++ sep ++ joinSep sep xs

/-- Lines 44-47 of the source: the Experience field mined from a detail
page's body text.  experience starts as "not mentioned" and is overwritten
with the ", "-joined set of matches only when findall returned a
non-empty list. -/
def mineExperience (body : String) : String :=
  let ms := findallExperience body
  if ms = [] then "not mentioned" else joinSep ", " (dedupMatches ms)

/-- A job card as the script sees it: the three DOM reads of lines 28-37.
Each selector either finds an element (giving its text or attribute) or
does not. -/
structure Card where
  title : Option String
  location : Option String
  href : Option String
deriving DecidableEq

/-- One output record, lines 53-59: the dict appended to jobs.  The four
text fields are strings and the page index is an integer. -/
structure JobRecord where
  job : String
  location : String
  experience : String
  jobDescription : String
  servicenowPage : Nat
deriving DecidableEq

/-- Python str.strip(): removes leading and trailing whitespace. -/
def pyStrip (s : String) : String :=
  String.mk (((s.data.dropWhile isSpaceChar).reverse.dropWhile isSpaceChar).reverse)

/-- Lines 28-29: the Job field, "NONE" when the title selector finds
nothing. -/
def cardTitle (card : Card) : String :=
  match card.title with
  | some t => pyStrip t
  | none => "NONE"

/-- Lines 31-32: the Location field, "NONE" when the selector finds
nothing. -/
def cardLocation (card : Card) : String :=
  match card.location with
  | some l => pyStrip l
  | none => "NONE"

/-- The site origin prefixed to every relative detail-page href
(line 38). -/
def origin : String := "https://careers.servicenow.com"

/-- Line 38: jobLink is the origin-prefixed absolute URL when the card has
an anchor with an href, and the empty string otherwise. -/
def resolveLink (card : Card) : String :=
  match card.href with
  | some h => origin ++ h
  | none => ""

/-- How the interaction with the detail page turns out, i.e. which (if
any) of the statements inside the try of lines 41-49 raises.  openFail:
context.new_page() raises before any navigation; gotoFail: goto raises
after the page was opened; readFail: inner_text raises after a successful
navigation; closeFail: close raises after the body text was read; ok:
every statement succeeds, bodyText is the detail page's body text. -/
inductive DetailOutcome where
  | openFail (msg : String)
  | gotoFail (msg : String)
  | readFail (msg : String)
  | closeFail (bodyText : String) (msg : String)
  | ok (bodyText : String)
deriving DecidableEq

/-- What processing one card produces, together with the observable
effects of the detail-page step: whether a detail navigation was
attempted, how many secondary pages were opened and how many were closed,
and the error line printed by the except branch of line 50-51, if any. -/
structure CardResult where
  record : JobRecord
  detailNavAttempted : Bool
  pagesOpened : Nat
  pagesClosed : Nat
  loggedError : Option String
deriving DecidableEq

/-- Lines 27-59: processing of a single card.  job_desc and experience
start as "not mentioned"; when jobLink is non-empty (Python truthiness of
the string), the detail-page block runs and its try/except determines
which assignments happened before the exception, if any; the record is
appended unconditionally afterwards. -/
def processCard (card : Card) (outcome : DetailOutcome) (pageNum : Nat) : CardResult :=
  if resolveLink card = "" then
    { record := { job := cardTitle card, location := cardLocation card,
                  experience := "not mentioned", jobDescription := "not mentioned",
                  servicenowPage := pageNum },
      detailNavAttempted := false, pagesOpened := 0, pagesClosed := 0,
      loggedError := none }
  else
    match outcome with
    | DetailOutcome.openFail msg =>
      { record := { job := cardTitle card, location := cardLocation card,
                    experience := "not mentioned", jobDescription := "not mentioned",
                    servicenowPage := pageNum },
        detailNavAttempted := false, pagesOpened := 0, pagesClosed := 0,
        loggedError := some ("Error reading job page " ++ resolveLink card ++ ": " ++ msg) }
    | DetailOutcome.gotoFail msg =>
      { record := { job := cardTitle card, location := cardLocation card,
                    experience := "not mentioned", jobDescription := "not mentioned",
                    servicenowPage := pageNum },
        detailNavAttempted := true, pagesOpened := 1, pagesClosed := 0,
        loggedError := some ("Error reading job page " ++ resolveLink card ++ ": " ++ msg) }
    | DetailOutcome.readFail msg =>
      { record := { job := cardTitle card, location := cardLocation card,
                    experience := "not mentioned", jobDescription := "not mentioned",
                    servicenowPage := pageNum },
        detailNavAttempted := true, pagesOpened := 1, pagesClosed := 0,
        loggedError := some ("Error reading job page " ++ resolveLink card ++ ": " ++ msg) }
    | DetailOutcome.closeFail body msg =>
      { record := { job := cardTitle card, location := cardLocation card,
                    experience := mineExperience body, jobDescription := resolveLink card,
                    servicenowPage := pageNum },
        detailNavAttempted := true, pagesOpened := 1, pagesClosed := 0,
        loggedError := some ("Error reading job page " ++ resolveLink card ++ ": " ++ msg) }
    | DetailOutcome.ok body =>
      { record := { job := cardTitle card, location := cardLocation card,
                    experience := mineExperience body, jobDescription := resolveLink card,
                    servicenowPage := pageNum },
        detailNavAttempted := true, pagesOpened := 1, pagesClosed := 1,
        loggedError := none }

/-- How fetching one listing page turns out: loadFail when goto or the
10-second wait_for_function poll of line 23 raises (a timeout with zero
cards rendered is such a failure); ok gives the enumerated cards in DOM
order, each with the outcome of its detail-page step. -/
inductive PageOutcome where
  | loadFail (msg : String)
  | ok (cards : List (Card × DetailOutcome))

/-- Records and console lines produced for one listing page. -/
structure PageResult where
  records : List JobRecord
  log : List String

/-- Lines 19-63: one iteration of the page loop.  A page-level failure is
caught by the except of line 62, printed, and yields no records; on
success every card yields exactly one record, card-level error lines are
printed during the loop, and "Scraped page n" is printed at the end. -/
def processPage (pageNum : Nat) (o : PageOutcome) : PageResult :=
  match o with
  | PageOutcome.loadFail msg =>
    { records := [], log := ["Failed on page " ++ toString pageNum ++ ": " ++ msg] }
  | PageOutcome.ok cards =>
    let results := cards.map fun cd => processCard cd.1 cd.2 pageNum
    { records := results.map CardResult.record,
      log := results.filterMap CardResult.loggedError
             ++ ["Scraped page " ++ toString pageNum] }

/-- The page loop, pages numbered from n upward, accumulating records and
console output in order. -/
def runPagesAux : Nat → List PageOutcome → PageResult
  | _, [] => { records := [], log := [] }
  | n, o :: os =>
    let r := processPage n o
    let rest := runPagesAux (n + 1) os
    { records := r.records ++ rest.records, log := r.log ++ rest.log }

/-- JSON string escaping of Python's json encoder with the default
ensure_ascii=True: printable ASCII is kept, the short escapes are used for
the quote, backslash and common control characters, every other character
becomes a \uXXXX escape (a surrogate pair above U+FFFF). -/
def hexDigit (n : Nat) : Char :=
  if n < 10 then Char.ofNat (48 + n) else Char.ofNat (87 + n)

/-- Four lowercase hex digits of n (n < 65536). -/
def hex4 (n : Nat) : String :=
  String.mk [hexDigit (n / 4096 % 16), hexDigit (n / 256 % 16),
             hexDigit (n / 16 % 16), hexDigit (n % 16)]

/-- One character of a JSON string, escaped as Python's json encoder
escapes it. -/
def escapeJsonChar (c : Char) : String :=
  if c = '"' then "\\\""
  else if c = '\\' then "\\\\"
  else if c = '\n' then "\\n"
  else if c = '\t' then "\\t"
  else if c = '\r' then "\\r"
  else if c.toNat = 8 then "\\b"
  else if c.toNat = 12 then "\\f"
  else if 32 ≤ c.toNat && c.toNat ≤ 126 then String.mk [c]
  else if c.toNat < 65536 then "\\u" ++ hex4 c.toNat
  else "\\u" ++ hex4 (55296 + (c.toNat - 65536) / 1024)
       ++ "\\u" ++ hex4 (56320 + (c.toNat - 65536) % 1024)

/-- Escape every character of a string for JSON. -/
def escapeJson : List Char → String
  | [] => ""
  | c :: cs => escapeJsonChar c ++ escapeJson cs

/-- A JSON string literal: the escaped text in double quotes. -/
def jstr (s : String) : String :=
  "\"" ++ escapeJson s.data ++ "\""

/-- json.dump of one record dict with indent=2, as nested two levels deep
inside the array: keys in insertion order (lines 53-59), the four text
fields as JSON strings, ServiceNow Page as a bare integer. -/
def renderRecord (r : JobRecord) : String :=
  "  \x7b\n"
  ++ "    \"Job\": " ++ jstr r.job ++ ",\n"
  ++ "    \"Location\": " ++ jstr r.location ++ ",\n"
  ++ "    \"Experience\": " ++ jstr r.experience ++ ",\n"
  ++ "    \"Job Description\": " ++ jstr r.jobDescription ++ ",\n"
  ++ "    \"ServiceNow Page\": " ++ toString r.servicenowPage ++ "\n"
  ++ "  \x7d"

/-- json.dump(jobs, f, indent=2) (line 70): an empty list is rendered as
the bare empty array, a non-empty list as a pretty-printed array with
2-space indentation, one object per record, in list order. -/
def serializeJobs (rs : List JobRecord) : String :=
  match rs with
  | [] => "[]"
  | _ => "[\n" ++ joinSep ",\n" (rs.map renderRecord) ++ "\n]"

/-- Python str.replace(old, new) for single-character old and new: a
character-wise map. -/
def replaceChar (old new : Char) (s : String) : String :=
  String.mk (s.data.map fun x => if x = old then new else x)

/-- Lines 67-68: the output file name, built from
datetime.now().isoformat() with ":" and then "." replaced by "-". -/
def outputFilename (timestamp : String) : String :=
  "PY_jobs-" ++ replaceChar '.' '-' (replaceChar ':' '-' timestamp) ++ ".json"

/-- Everything the run produces after the page loop: the accumulated
records, the file (name and content) written on lines 67-70, and the
console output including the final "Saved ..." line. -/
structure RunOutput where
  records : List JobRecord
  fileName : String
  fileContent : String
  log : List String

/-- Lines 19-72: the whole run after browser launch, for a configured list
of page outcomes (the source configures exactly one page, range(1, 2)).
Whatever the per-page outcomes were, the loop finishes, the browser is
closed and the output file is written with every accumulated record. -/
def runScrape (outcomes : List PageOutcome) (timestamp : String) : RunOutput :=
  let pr := runPagesAux 1 outcomes
  { records := pr.records,
    fileName := outputFilename timestamp,
    fileContent := serializeJobs pr.records,
    log := pr.log
           ++ ["Saved " ++ toString pr.records.length ++ " jobs to "
               ++ outputFilename timestamp] }

/-- Appending strings appends their character lists. -/
theorem string_data_append (s t : String) : (s ++ t).data = s.data ++ t.data := by
  cases s
  cases t
  rfl

/-- The origin-prefixed jobLink of a card with an href is never the empty
string, so the Python truthiness test of line 40 always takes the
detail-page branch for such a card. -/
theorem origin_append_ne_empty (h : String) : origin ++ h ≠ "" := by
  intro heq
  have hd : (origin ++ h).data = [] := congrArg String.data heq
  rw [string_data_append] at hd
  have ho : origin.data = 'h' :: "ttps://careers.servicenow.com".data := rfl
  rw [ho, List.cons_append] at hd
  exact List.cons_ne_nil _ _ hd

/-- Line 38 for a card with an href: jobLink is the origin-prefixed URL. -/
theorem resolveLink_some (t l : Option String) (h : String) :
    resolveLink ⟨t, l, some h⟩ = origin ++ h := rfl

/-- A card with an href never yields an empty jobLink. -/
theorem resolveLink_some_ne (t l : Option String) (h : String) :
    resolveLink ⟨t, l, some h⟩ ≠ "" := by
  rw [resolveLink_some]
  exact origin_append_ne_empty h

/-- Unfolding of processCard for a card without an href: the detail-page
block is skipped entirely. -/
theorem processCard_noLink (t l : Option String) (outcome : DetailOutcome) (n : Nat) :
    processCard ⟨t, l, none⟩ outcome n
      = { record := { job := cardTitle ⟨t, l, none⟩, location := cardLocation ⟨t, l, none⟩,
                      experience := "not mentioned", jobDescription := "not mentioned",
                      servicenowPage := n },
          detailNavAttempted := false, pagesOpened := 0, pagesClosed := 0,
          loggedError := none } := rfl

/-- Unfolding of processCard when context.new_page() raises. -/
theorem processCard_openFail (t l : Option String) (h msg : String) (n : Nat) :
    processCard ⟨t, l, some h⟩ (DetailOutcome.openFail msg) n
      = { record := { job := cardTitle ⟨t, l, some h⟩, location := cardLocation ⟨t, l, some h⟩,
                      experience := "not mentioned", jobDescription := "not mentioned",
                      servicenowPage := n },
          detailNavAttempted := false, pagesOpened := 0, pagesClosed := 0,
          loggedError := some ("Error reading job page " ++ (origin ++ h) ++ ": " ++ msg) } := by
  unfold processCard
  rw [if_neg (resolveLink_some_ne t l h)]
  rfl

/-- Unfolding of processCard when goto raises on the detail page. -/
theorem processCard_gotoFail (t l : Option String) (h msg : String) (n : Nat) :
    processCard ⟨t, l, some h⟩ (DetailOutcome.gotoFail msg) n
      = { record := { job := cardTitle ⟨t, l, some h⟩, location := cardLocation ⟨t, l, some h⟩,
                      experience := "not mentioned", jobDescription := "not mentioned",
                      servicenowPage := n },
          detailNavAttempted := true, pagesOpened := 1, pagesClosed := 0,
          loggedError := some ("Error reading job page " ++ (origin ++ h) ++ ": " ++ msg) } := by
  unfold processCard
  rw [if_neg (resolveLink_some_ne t l h)]
  rfl

/-- Unfolding of processCard when inner_text raises on the detail page. -/
theorem processCard_readFail (t l : Option String) (h msg : String) (n : Nat) :
    processCard ⟨t, l, some h⟩ (DetailOutcome.readFail msg) n
      = { record := { job := cardTitle ⟨t, l, some h⟩, location := cardLocation ⟨t, l, some h⟩,
                      experience := "not mentioned", jobDescription := "not mentioned",
                      servicenowPage := n },
          detailNavAttempted := true, pagesOpened := 1, pagesClosed := 0,
          loggedError := some ("Error reading job page " ++ (origin ++ h) ++ ": " ++ msg) } := by
  unfold processCard
  rw [if_neg (resolveLink_some_ne t l h)]
  rfl

/-- Unfolding of processCard when close raises after a successful body
read: experience and job_desc were already assigned. -/
theorem processCard_closeFail (t l : Option String) (h body msg : String) (n : Nat) :
    processCard ⟨t, l, some h⟩ (DetailOutcome.closeFail body msg) n
      = { record := { job := cardTitle ⟨t, l, some h⟩, location := cardLocation ⟨t, l, some h⟩,
                      experience := mineExperience body, jobDescription := origin ++ h,
                      servicenowPage := n },
          detailNavAttempted := true, pagesOpened := 1, pagesClosed := 0,
          loggedError := some ("Error reading job page " ++ (origin ++ h) ++ ": " ++ msg) } := by
  unfold processCard
  rw [if_neg (resolveLink_some_ne t l h)]
  rfl

/-- Unfolding of processCard when the whole detail-page block succeeds. -/
theorem processCard_ok (t l : Option String) (h body : String) (n : Nat) :
    processCard ⟨t, l, some h⟩ (DetailOutcome.ok body) n
      = { record := { job := cardTitle ⟨t, l, some h⟩, location := cardLocation ⟨t, l, some h⟩,
                      experience := mineExperience body, jobDescription := origin ++ h,
                      servicenowPage := n },
          detailNavAttempted := true, pagesOpened := 1, pagesClosed := 1,
          loggedError := none } := by
  unfold processCard
  rw [if_neg (resolveLink_some_ne t l h)]
  rfl

/-- A successfully fetched listing page yields one record per card, in
card order: the records of the surrounding cards are unaffected by the
card in the middle. -/
theorem processPage_records_append (n : Nat) (pre post : List (Card × DetailOutcome))
    (cd : Card × DetailOutcome) :
    (processPage n (PageOutcome.ok (pre ++ cd :: post))).records
      = (processPage n (PageOutcome.ok pre)).records
        ++ (processCard cd.1 cd.2 n).record
           :: (processPage n (PageOutcome.ok post)).records := by
  simp [processPage, List.map_append]

/-- After replacing ":" by "-" and then "." by "-", no character of the
result is a ":" or a ".". -/
theorem replaceNoColonDot (l : List Char) :
    (((l.map fun x => if x = ':' then '-' else x).map
        fun x => if x = '.' then '-' else x).all fun c => c != ':' && c != '.') = true := by
  induction l with
  | nil => rfl
  | cons c cs ih =>
    simp only [List.map_cons, List.all_cons, ih, Bool.and_true]
    by_cases h1 : c = ':'
    · subst h1
      decide
    · by_cases h2 : c = '.'
      · subst h2
        decide
      · rw [if_neg h1, if_neg h2]
        simp [Bool.and_eq_true, bne_iff_ne]
        exact ⟨h1, h2⟩

/-- C1: for every card with a resolved detail-page link, if opening,
navigating, or reading the detail page raises, the error is caught and
logged together with the URL, the record's Experience field is
"not mentioned", the record is still appended, and processing continues
with the remaining cards of the page. -/
theorem detailErrorCaughtNonfatal (t l : Option String) (h msg : String) (n : Nat)
    (outcome : DetailOutcome) (pre post : List (Card × DetailOutcome))
    (hfail : outcome = DetailOutcome.openFail msg ∨ outcome = DetailOutcome.gotoFail msg
             ∨ outcome = DetailOutcome.readFail msg) :
    (processCard ⟨t, l, some h⟩ outcome n).loggedError
        = some ("Error reading job page " ++ (origin ++ h) ++ ": " ++ msg)
    ∧ (processCard ⟨t, l, some h⟩ outcome n).record.experience = "not mentioned"
    ∧ (processPage n (PageOutcome.ok (pre ++ (⟨t, l, some h⟩, outcome) :: post))).records
        = (processPage n (PageOutcome.ok pre)).records
          ++ (processCard ⟨t, l, some h⟩ outcome n).record
             :: (processPage n (PageOutcome.ok post)).records := by
  rcases hfail with rfl | rfl | rfl
  · exact ⟨by rw [processCard_openFail], by rw [processCard_openFail],
           processPage_records_append n pre post _⟩
  · exact ⟨by rw [processCard_gotoFail], by rw [processCard_gotoFail],
           processPage_records_append n pre post _⟩
  · exact ⟨by rw [processCard_readFail], by rw [processCard_readFail],
           processPage_records_append n pre post _⟩

/-- Witness for C1: a concrete card whose detail navigation raises. -/
theorem detailErrorCaughtNonfatal_witness :
    (processCard ⟨some "T", some "Remote", some "/jobs/1"⟩
        (DetailOutcome.gotoFail "net::ERR_FAILED") 1).loggedError
        = some ("Error reading job page " ++ (origin ++ "/jobs/1") ++ ": " ++ "net::ERR_FAILED")
    ∧ (processCard ⟨some "T", some "Remote", some "/jobs/1"⟩
        (DetailOutcome.gotoFail "net::ERR_FAILED") 1).record.experience = "not mentioned"
    ∧ (processPage 1 (PageOutcome.ok
          ([] ++ (⟨some "T", some "Remote", some "/jobs/1"⟩,
                  DetailOutcome.gotoFail "net::ERR_FAILED") :: []))).records
        = (processPage 1 (PageOutcome.ok [])).records
          ++ (processCard ⟨some "T", some "Remote", some "/jobs/1"⟩
                (DetailOutcome.gotoFail "net::ERR_FAILED") 1).record
             :: (processPage 1 (PageOutcome.ok [])).records :=
  detailErrorCaughtNonfatal (some "T") (some "Remote") "/jobs/1" "net::ERR_FAILED" 1
    (DetailOutcome.gotoFail "net::ERR_FAILED") [] [] (Or.inr (Or.inl rfl))

/-- C2 counterexample: when goto raises on the detail page, the opened
secondary page is never closed — the source has no finally/with around
job_page, and job_page.close() on line 49 sits inside the try after the
statements that can raise. -/
theorem detailPageLeakCounterexample :
    (processCard ⟨some "T", some "L", some "/jobs/1"⟩
        (DetailOutcome.gotoFail "net::ERR_FAILED") 1).pagesOpened = 1
    ∧ (processCard ⟨some "T", some "L", some "/jobs/1"⟩
        (DetailOutcome.gotoFail "net::ERR_FAILED") 1).pagesClosed = 0 :=
  ⟨rfl, rfl⟩

/-- C2 (amended): the detail page is closed on the success path only; when
navigation or the body-text read raises (and also when close itself
raises), the opened page is not closed and stays open across the
remaining iterations. -/
theorem detailPageCloseBehavior (t l : Option String) (h body msg : String) (n : Nat) :
    (processCard ⟨t, l, some h⟩ (DetailOutcome.ok body) n).pagesOpened = 1
    ∧ (processCard ⟨t, l, some h⟩ (DetailOutcome.ok body) n).pagesClosed = 1
    ∧ (processCard ⟨t, l, some h⟩ (DetailOutcome.gotoFail msg) n).pagesOpened = 1
    ∧ (processCard ⟨t, l, some h⟩ (DetailOutcome.gotoFail msg) n).pagesClosed = 0
    ∧ (processCard ⟨t, l, some h⟩ (DetailOutcome.readFail msg) n).pagesOpened = 1
    ∧ (processCard ⟨t, l, some h⟩ (DetailOutcome.readFail msg) n).pagesClosed = 0
    ∧ (processCard ⟨t, l, some h⟩ (DetailOutcome.closeFail body msg) n).pagesClosed = 0 :=
  ⟨by rw [processCard_ok], by rw [processCard_ok],
   by rw [processCard_gotoFail], by rw [processCard_gotoFail],
   by rw [processCard_readFail], by rw [processCard_readFail],
   by rw [processCard_closeFail]⟩

/-- C3: when the detail-page body text is read successfully, the Experience
field is the deduplicated matches of the experience pattern joined with
", " (or "not mentioned" when there is no match); on the spec's example
text the field is one of the two orders of the two distinct matches. -/
theorem experienceFromBodyText (t l : Option String) (h body : String) (n : Nat) :
    (processCard ⟨t, l, some h⟩ (DetailOutcome.ok body) n).record.experience
      = (if findallExperience body = [] then "not mentioned"
         else joinSep ", " (dedupMatches (findallExperience body)))
    ∧ ((processCard ⟨none, none, some "/x"⟩
          (DetailOutcome.ok "Requires 5+ years of experience, ideally three years in the field")
          1).record.experience
        = "5+ years, three years"
      ∨ (processCard ⟨none, none, some "/x"⟩
          (DetailOutcome.ok "Requires 5+ years of experience, ideally three years in the field")
          1).record.experience
        = "three years, 5+ years") := by
  constructor
  · rw [processCard_ok]
    rfl
  · exact Or.inl rfl

/-- C4 counterexample: the claim says every written-out word "one" through
"ten" is matched in both the singular and the plural form, but the source
alternative for "one" is `one year` with no optional "s": "one years"
yields no match while the sibling "two years" does. -/
theorem oneYearsNotMatched :
    findallExperience "one years" = [] ∧ findallExperience "two years" = ["two years"] :=
  ⟨rfl, rfl⟩

/-- C4 (amended): the pattern is case-insensitive and matches, at word
boundaries, "at least N year(s)", "minimum N year(s)" and "N year(s)" with
N one or more digits optionally followed by "+", and the written-out words
"two" through "ten" followed by "year" or "years" — but "one" only in the
singular form "one year". -/
theorem experiencePatternShape :
    findallExperience "at least 5 years" = ["at least 5 years"]
    ∧ findallExperience "AT LEAST 12+ YEARS" = ["AT LEAST 12+ YEARS"]
    ∧ findallExperience "minimum 3 years" = ["minimum 3 years"]
    ∧ findallExperience "Minimum 10+ Years" = ["Minimum 10+ Years"]
    ∧ findallExperience "7 years" = ["7 years"]
    ∧ findallExperience "7+ year" = ["7+ year"]
    ∧ findallExperience "120 years" = ["120 years"]
    ∧ findallExperience "one year" = ["one year"]
    ∧ findallExperience "One Year" = ["One Year"]
    ∧ findallExperience "one years" = []
    ∧ findallExperience "two year" = ["two year"]
    ∧ findallExperience "TWO YEARS" = ["TWO YEARS"]
    ∧ findallExperience "three year" = ["three year"]
    ∧ findallExperience "three years" = ["three years"]
    ∧ findallExperience "four years" = ["four years"]
    ∧ findallExperience "Five Years" = ["Five Years"]
    ∧ findallExperience "six years" = ["six years"]
    ∧ findallExperience "seven years" = ["seven years"]
    ∧ findallExperience "eight years" = ["eight years"]
    ∧ findallExperience "nine years" = ["nine years"]
    ∧ findallExperience "ten year" = ["ten year"]
    ∧ findallExperience "ten years" = ["ten years"]
    ∧ findallExperience "eleven years" = []
    ∧ findallExperience "zero years" = []
    ∧ findallExperience "years" = []
    ∧ findallExperience "5 yearly" = []
    ∧ findallExperience "someone year" = [] := by
  refine ⟨?_, ?_, ?_, ?_, ?_, ?_, ?_, ?_, ?_, ?_, ?_, ?_, ?_, ?_, ?_, ?_, ?_, ?_, ?_, ?_,
          ?_, ?_, ?_, ?_, ?_, ?_, ?_⟩ <;> rfl

/-- C5: a card without an anchor href emits a record whose Experience and
Job Description are both the "not mentioned" sentinel, and no detail-page
navigation is attempted and no secondary page is opened for it. -/
theorem noLinkNoDetailCall (t l : Option String) (outcome : DetailOutcome) (n : Nat) :
    (processCard ⟨t, l, none⟩ outcome n).record.experience = "not mentioned"
    ∧ (processCard ⟨t, l, none⟩ outcome n).record.jobDescription = "not mentioned"
    ∧ (processCard ⟨t, l, none⟩ outcome n).detailNavAttempted = false
    ∧ (processCard ⟨t, l, none⟩ outcome n).pagesOpened = 0 := by
  rw [processCard_noLink]
  exact ⟨rfl, rfl, rfl, rfl⟩

/-- C6 counterexample: for a card without an href the resulting record's
Job Description field is the sentinel "not mentioned", not the empty
string (only the internal jobLink variable is empty). -/
theorem noHrefDescriptionNotEmpty :
    (processCard ⟨some "T", some "L", none⟩ (DetailOutcome.ok "text") 1).record.jobDescription
      = "not mentioned"
    ∧ (processCard ⟨some "T", some "L", none⟩
        (DetailOutcome.ok "text") 1).record.jobDescription ≠ "" := by
  exact ⟨rfl, by decide⟩

/-- C6 (amended): when the href is absent, the internal jobLink value is
the empty string and the record's Job Description field is the
"not mentioned" sentinel; when the href is present and the detail read
succeeds, the field is the origin-prefixed absolute URL. -/
theorem linkResolutionAndDescription (t l : Option String) (h body : String) (n : Nat) :
    resolveLink ⟨t, l, none⟩ = ""
    ∧ (processCard ⟨t, l, none⟩ (DetailOutcome.ok body) n).record.jobDescription
        = "not mentioned"
    ∧ resolveLink ⟨t, l, some h⟩ = "https://careers.servicenow.com" ++ h
    ∧ (processCard ⟨t, l, some h⟩ (DetailOutcome.ok body) n).record.jobDescription
        = "https://careers.servicenow.com" ++ h := by
  refine ⟨rfl, ?_, rfl, ?_⟩
  · rw [processCard_noLink]
  · rw [processCard_ok]
    rfl

/-- C7: a listing-page failure (such as the 10-second timeout with zero
cards) is caught and logged and the run still writes the output file with
every accumulated record; for the single configured page failing, the
file contains the empty JSON array. -/
theorem pageFailureNonfatalOutputWritten (msg ts : String) (outcomes : List PageOutcome)
    (o : PageOutcome) (os : List PageOutcome) (n : Nat)
    (cards : List (Card × DetailOutcome)) :
    (runScrape [PageOutcome.loadFail msg] ts).records = []
    ∧ (runScrape [PageOutcome.loadFail msg] ts).fileContent = "[]"
    ∧ (runScrape [PageOutcome.loadFail msg] ts).log
        = ["Failed on page 1: " ++ msg, "Saved 0 jobs to " ++ outputFilename ts]
    ∧ (runScrape outcomes ts).fileContent = serializeJobs (runScrape outcomes ts).records
    ∧ (runScrape outcomes ts).fileName = outputFilename ts
    ∧ (runPagesAux n (o :: os)).records
        = (processPage n o).records ++ (runPagesAux (n + 1) os).records
    ∧ (runScrape [PageOutcome.ok cards] ts).records
        = (processPage 1 (PageOutcome.ok cards)).records := by
  refine ⟨rfl, rfl, ?_, rfl, rfl, rfl, ?_⟩
  · have e1 : "Failed on page " ++ toString (1 : Nat) ++ ": " = "Failed on page 1: " := by
      decide
    have e2 : "Saved " ++ toString (0 : Nat) ++ " jobs to " = "Saved 0 jobs to " := by
      decide
    simp only [runScrape, runPagesAux, processPage]
    simp only [List.append_nil, List.nil_append, List.length_nil, List.cons_append]
    rw [e1, e2]
  · simp [runScrape, runPagesAux]

set_option maxRecDepth 8000 in
/-- C8: the output is the ordered record sequence as a JSON array with
2-space indentation, each object holding exactly the five fields Job,
Location, Experience, Job Description (JSON strings) and ServiceNow Page
(bare integer), written to PY_jobs-{timestamp}.json where every ":" and
"." of the timestamp is replaced by "-". -/
theorem outputFileShape (ts : String) (r1 : JobRecord) (rs : List JobRecord) :
    (∃ mid : String,
        outputFilename ts = "PY_jobs-" ++ mid ++ ".json"
        ∧ (mid.data.all fun c => c != ':' && c != '.') = true)
    ∧ serializeJobs [] = "[]"
    ∧ serializeJobs (r1 :: rs) = "[\n" ++ joinSep ",\n" ((r1 :: rs).map renderRecord) ++ "\n]"
    ∧ serializeJobs
        [{ job := "Software Engineer", location := "Remote", experience := "5+ years",
           jobDescription := "https://careers.servicenow.com/jobs/1", servicenowPage := 1 },
         { job := "Analyst", location := "Tokyo", experience := "not mentioned",
           jobDescription := "not mentioned", servicenowPage := 1 }]
        = "[\n  \x7b\n    \"Job\": \"Software Engineer\",\n    \"Location\": \"Remote\",\n    \"Experience\": \"5+ years\",\n    \"Job Description\": \"https://careers.servicenow.com/jobs/1\",\n    \"ServiceNow Page\": 1\n  \x7d,\n  \x7b\n    \"Job\": \"Analyst\",\n    \"Location\": \"Tokyo\",\n    \"Experience\": \"not mentioned\",\n    \"Job Description\": \"not mentioned\",\n    \"ServiceNow Page\": 1\n  \x7d\n]" := by
  refine ⟨⟨replaceChar '.' '-' (replaceChar ':' '-' ts), rfl, replaceNoColonDot ts.data⟩,
          rfl, rfl, ?_⟩
  decide

/-- C9: when the detail-page navigation or body-text read fails, the
record's Job Description stays "not mentioned" (the URL is assigned on
line 48 only after a successful body read), so in its Experience and Job
Description fields the record equals the record of the same card with no
link at all. -/
theorem detailFailureIndistinguishable (t l : Option String) (h msg : String) (n : Nat)
    (outcome : DetailOutcome)
    (hfail : outcome = DetailOutcome.gotoFail msg ∨ outcome = DetailOutcome.readFail msg) :
    (processCard ⟨t, l, some h⟩ outcome n).record.jobDescription = "not mentioned"
    ∧ (processCard ⟨t, l, some h⟩ outcome n).record.experience = "not mentioned"
    ∧ (processCard ⟨t, l, some h⟩ outcome n).record.jobDescription
        = (processCard ⟨t, l, none⟩ outcome n).record.jobDescription
    ∧ (processCard ⟨t, l, some h⟩ outcome n).record.experience
        = (processCard ⟨t, l, none⟩ outcome n).record.experience := by
  rcases hfail with rfl | rfl
  · rw [processCard_gotoFail, processCard_noLink]
    exact ⟨rfl, rfl, rfl, rfl⟩
  · rw [processCard_readFail, processCard_noLink]
    exact ⟨rfl, rfl, rfl, rfl⟩

/-- Witness for C9: a concrete card whose detail body-text read raises. -/
theorem detailFailureIndistinguishable_witness :
    (processCard ⟨some "T", some "L", some "/jobs/2"⟩
        (DetailOutcome.readFail "boom") 1).record.jobDescription = "not mentioned"
    ∧ (processCard ⟨some "T", some "L", some "/jobs/2"⟩
        (DetailOutcome.readFail "boom") 1).record.experience = "not mentioned"
    ∧ (processCard ⟨some "T", some "L", some "/jobs/2"⟩
        (DetailOutcome.readFail "boom") 1).record.jobDescription
        = (processCard ⟨some "T", some "L", none⟩
            (DetailOutcome.readFail "boom") 1).record.jobDescription
    ∧ (processCard ⟨some "T", some "L", some "/jobs/2"⟩
        (DetailOutcome.readFail "boom") 1).record.experience
        = (processCard ⟨some "T", some "L", none⟩
            (DetailOutcome.readFail "boom") 1).record.experience :=
  detailFailureIndistinguishable (some "T") (some "L") "/jobs/2" "boom" 1
    (DetailOutcome.readFail "boom") (Or.inr rfl)

/-- C10: deduplication of the matches is by exact matched substring, so
two matches differing only in letter case are both retained and both
appear in the joined Experience field. -/
theorem dedupCaseSensitive :
    findallExperience "Requires 5+ years, ideally 5+ Years of work"
      = ["5+ years", "5+ Years"]
    ∧ dedupMatches (findallExperience "Requires 5+ years, ideally 5+ Years of work")
      = ["5+ years", "5+ Years"]
    ∧ (processCard ⟨some "T", some "L", some "/x"⟩
        (DetailOutcome.ok "Requires 5+ years, ideally 5+ Years of work") 1).record.experience
      = "5+ years, 5+ Years" :=
  ⟨rfl, rfl, rfl⟩
